import Mathlib

/-!
Shallow embedding of `google/cloud/bigquery/dbapi/connection.py`.

Clients, storage clients and cursors are Python objects; here each is
represented by a `Nat` identifier.  Side effects of `Connection.close`
(closing the primary client, closing the storage client's transport
channel, closing tracked cursors) are recorded as an explicit list of
`Event`s; an event is recorded only when the corresponding close
operation completes without raising.  Exceptions are modelled with
`Except`: a method returns its post-state together with either an error
or its result.
-/

namespace BQDbapi

/-- Exceptions that can surface from the embedded methods:
the DB-API `ProgrammingError` raised by the closed-connection guard,
an exception propagating out of the owned primary client's own
`close()`, and the `AttributeError` Python would raise on
`None.transport` (unreachable from the constructor). -/
inductive PyError where
  | programmingError (msg : String)
  | clientCloseError
  | attributeError
deriving DecidableEq

/-- Observable side effects of `Connection.close`:
`clientClose c` records `client.close()` on primary client `c`,
`channelClose b` records `bqstorage_client.transport.channel.close()`
on storage client `b`, and `cursorClose k` records `cursor_.close()`
on cursor `k`. -/
inductive Event where
  | clientClose (id : Nat)
  | channelClose (id : Nat)
  | cursorClose (id : Nat)
deriving DecidableEq

/-- Recognizer for primary-client close events. -/
def Event.isClientCloseEv : Event → Bool
  | .clientClose _ => true
  | _ => false

/-- Recognizer for storage-transport-channel close events. -/
def Event.isChannelCloseEv : Event → Bool
  | .channelClose _ => true
  | _ => false

/-- Recognizer for cursor close events. -/
def Event.isCursorCloseEv : Event → Bool
  | .cursorClose _ => true
  | _ => false

/-- Events of a method outcome: the recorded events on success, and
nothing on an exceptional exit (an event is recorded only for a close
operation that completed). -/
def okEvents : Except PyError (List Event) → List Event
  | .ok evs => evs
  | .error _ => []

/-- Whether a method outcome is a normal (non-raising) return. -/
def exOk : Except PyError (List Event) → Bool
  | .ok _ => true
  | .error _ => false

/-- State of a `Connection` instance, mirroring the attributes set by
`Connection.__init__`: `_client`, `_bqstorage_client`, `_owns_client`,
`_owns_bqstorage_client`, `_closed`, and `_cursors_created` (the
WeakSet, as the list of its currently live members). -/
structure Connection where
  client : Nat
  bqstorage_client : Option Nat
  owns_client : Bool
  owns_bqstorage_client : Bool
  closed : Bool
  cursors_created : List Nat
deriving DecidableEq

/-- Translation of `Connection.__init__`.  The Python parameters
`client=None, bqstorage_client=None` are the two `Option` arguments.
`defaultClient` stands for the `bigquery.Client()` constructed from the
environment when `client` is omitted.  `createBqstorage` stands for the
factory capability `client._create_bqstorage_client()` — modelled from
the spec, since `bigquery.Client` is outside these sources: per the
source comment ("A warning is already raised by the factory if
instantiation fails") and the spec, the factory never raises and
returns null on failure, hence a total `Option`-valued function. -/
def Connection.init (createBqstorage : Nat → Option Nat) (defaultClient : Nat)
    (client? : Option Nat) (bqstorage? : Option Nat) : Connection :=
  let clientOwns : Nat × Bool :=
    match client? with
    | none => (defaultClient, true)
    | some c => (c, false)
  let bqOwns : Option Nat × Bool :=
    match bqstorage? with
    | none =>
        let b := createBqstorage clientOwns.1
        (b, b.isSome)
    | some b => (some b, false)
  { client := clientOwns.1
    bqstorage_client := bqOwns.1
    owns_client := clientOwns.2
    owns_bqstorage_client := bqOwns.2
    closed := false
    cursors_created := [] }

/-- Modelled from the spec: the closed-connection guard installed by the
`@_helpers.raise_on_closed("Operating on a closed connection.")` class
decorator.  The decorator's definition lives in `_helpers`, which is not
among these sources; per the spec every public operation is guarded: if
`closed` is true at call time the operation raises this dedicated error
immediately, before any of its body runs. -/
def closedConnectionError : PyError :=
  .programmingError "Operating on a closed connection."

/-- Effects performed by the body of `Connection.close` after the
initial `self._closed = True` assignment (the assignment is the only
mutation of the connection's own attributes in `close`; everything
after it only closes other objects, recorded here as events).  The
order follows the source: primary client if owned, then the storage
transport channel if owned, then each live tracked cursor.
`failClientClose c` models the owned primary client's `close()`
raising for client `c`; the raise propagates unmodified and aborts
the remainder of the body. -/
def Connection.closeEffects (failClientClose : Nat → Bool) (conn1 : Connection) :
    Except PyError (List Event) :=
  if conn1.owns_client && failClientClose conn1.client then
    .error .clientCloseError
  else
    let ev1 : List Event :=
      if conn1.owns_client then [Event.clientClose conn1.client] else []
    if conn1.owns_bqstorage_client then
      match conn1.bqstorage_client with
      | none => .error .attributeError
      | some b =>
          .ok (ev1 ++ [Event.channelClose b]
            ++ conn1.cursors_created.map Event.cursorClose)
    else
      .ok (ev1 ++ conn1.cursors_created.map Event.cursorClose)

/-- Translation of `Connection.close`, wrapped in the modelled
closed-connection guard.  The body first sets `_closed = True`
unconditionally and then performs the close cascade
(`Connection.closeEffects`). -/
def Connection.close (failClientClose : Nat → Bool) (conn : Connection) :
    Connection × Except PyError (List Event) :=
  if conn.closed then
    (conn, .error closedConnectionError)
  else
    let conn1 : Connection := { conn with closed := true }
    (conn1, conn1.closeEffects failClientClose)

/-- Translation of `Connection.commit`, wrapped in the modelled
closed-connection guard.  The body is empty (a no-op returning `None`). -/
def Connection.commit (conn : Connection) : Connection × Except PyError Unit :=
  if conn.closed then
    (conn, .error closedConnectionError)
  else
    (conn, .ok ())

/-- Translation of `Connection.cursor`, wrapped in the modelled
closed-connection guard.  `cursor.Cursor(self)` constructs a fresh
Python object; object creation is modelled by an allocator counter
`heap`, so the new cursor is the id `heap` and the counter advances.
The new cursor is added to `_cursors_created` and then returned. -/
def Connection.cursor (conn : Connection) (heap : Nat) :
    Connection × Nat × Except PyError Nat :=
  if conn.closed then
    (conn, heap, .error closedConnectionError)
  else
    ({ conn with cursors_created := conn.cursors_created ++ [heap] },
      heap + 1, .ok heap)

/-- Weak-reference reclamation: the cursors in `dead` have lost their
last strong reference and silently drop out of the WeakSet
`_cursors_created`.  This can happen at any point before a `close()`
call; `close()` then sees only the surviving members. -/
def Connection.reclaim (dead : List Nat) (conn : Connection) : Connection :=
  { conn with
    cursors_created := conn.cursors_created.filter (fun c => decide (c ∉ dead)) }

/-- Translation of the module-level `connect` factory: it returns
`Connection(client, bqstorage_client)` and nothing else. -/
def connect (createBqstorage : Nat → Option Nat) (defaultClient : Nat)
    (client? : Option Nat) (bqstorage? : Option Nat) : Connection :=
  Connection.init createBqstorage defaultClient client? bqstorage?

/-! Helper lemmas about close-event lists. -/

theorem filter_clientEv_of_map_cursorClose (l : List Nat) :
    (l.map Event.cursorClose).filter Event.isClientCloseEv = [] := by
  induction l with
  | nil => rfl
  | cons a t ih => simp [Event.isClientCloseEv, ih]

theorem filter_channelEv_of_map_cursorClose (l : List Nat) :
    (l.map Event.cursorClose).filter Event.isChannelCloseEv = [] := by
  induction l with
  | nil => rfl
  | cons a t ih => simp [Event.isChannelCloseEv, ih]

theorem filter_cursorEv_of_map_cursorClose (l : List Nat) :
    (l.map Event.cursorClose).filter Event.isCursorCloseEv = l.map Event.cursorClose := by
  induction l with
  | nil => rfl
  | cons a t ih => simp [Event.isCursorCloseEv, ih]

/-- C7: for all optional arguments, `connect(a, b)` returns exactly
`Connection(a, b)`: same two optional parameters, no additional
behavior and no additional validation. -/
theorem connect_eq_Connection (createBqstorage : Nat → Option Nat)
    (defaultClient : Nat) (client? bqstorage? : Option Nat) :
    connect createBqstorage defaultClient client? bqstorage?
      = Connection.init createBqstorage defaultClient client? bqstorage? := rfl

/-- C3: if `client` is omitted, the default client is used and
`_owns_client` is set; if `client` is supplied, it is used as-is with
`_owns_client` false, and `close()` (whatever the environment does)
succeeds without ever emitting a close of that supplied client. -/
theorem init_primary_ownership (f : Nat → Option Nat) (d c : Nat)
    (bqstorage? : Option Nat) (fail : Nat → Bool) :
    (Connection.init f d none bqstorage?).client = d
    ∧ (Connection.init f d none bqstorage?).owns_client = true
    ∧ (Connection.init f d (some c) bqstorage?).client = c
    ∧ (Connection.init f d (some c) bqstorage?).owns_client = false
    ∧ (okEvents (Connection.close fail (Connection.init f d (some c) bqstorage?)).2).filter
        Event.isClientCloseEv = [] := by
  refine ⟨?_, ?_, ?_, ?_, ?_⟩
  · cases bqstorage? <;> rfl
  · cases bqstorage? <;> rfl
  · cases bqstorage? <;> rfl
  · cases bqstorage? <;> rfl
  · cases bqstorage? with
    | none =>
        cases hfc : f c with
        | none =>
            simp [Connection.init, Connection.close, Connection.closeEffects, hfc, okEvents]
        | some b =>
            simp [Connection.init, Connection.close, Connection.closeEffects, hfc, okEvents,
              Event.isClientCloseEv, List.filter]
    | some b =>
        simp [Connection.init, Connection.close, Connection.closeEffects, okEvents,
          Event.isClientCloseEv, List.filter]

/-- C4: if `bqstorage_client` is omitted, it is derived by invoking the
factory capability on the (possibly defaulted) primary client, a
failure being observable only as a null result (the factory is total:
it cannot raise out of the constructor), and `_owns_bqstorage_client`
is set iff the result is non-null; if `bqstorage_client` is supplied,
it is used as-is and `_owns_bqstorage_client` is false. -/
theorem init_bqstorage_ownership (f : Nat → Option Nat) (d b : Nat)
    (client? : Option Nat) :
    (Connection.init f d client? none).bqstorage_client
      = f (Connection.init f d client? none).client
    ∧ (Connection.init f d client? none).owns_bqstorage_client
      = (f (Connection.init f d client? none).client).isSome
    ∧ (Connection.init f d client? (some b)).bqstorage_client = some b
    ∧ (Connection.init f d client? (some b)).owns_bqstorage_client = false := by
  cases client? <;> exact ⟨rfl, rfl, rfl, rfl⟩

/-- C8: `commit()` on an open connection is a no-op: it returns
normally and the connection state (closed flag, ownership flags,
clients, cursor registry) is unchanged; no close event can occur. -/
theorem commit_noop (conn : Connection) (h : conn.closed = false) :
    Connection.commit conn = (conn, Except.ok ()) := by
  simp [Connection.commit, h]

/-- Witness for C8 at a concrete freshly constructed connection. -/
theorem commit_noop_witness :
    Connection.commit (Connection.init (fun _ => none) 0 none none)
      = (Connection.init (fun _ => none) 0 none none, Except.ok ()) :=
  commit_noop (Connection.init (fun _ => none) 0 none none) rfl

/-- C1: once `close()` has been called on a connection (whatever the
close cascade did), `closed` is true, and every subsequent public
operation — `close()` itself, `commit()`, `cursor()` — raises the
dedicated closed-connection error immediately, performs no work, and
leaves all state (connection and allocator) unchanged. -/
theorem closed_guard_all_ops (conn0 conn : Connection) (fail : Nat → Bool)
    (r : Except PyError (List Event)) (heap : Nat)
    (h0 : conn0.closed = false)
    (hc : Connection.close fail conn0 = (conn, r)) :
    conn.closed = true
    ∧ Connection.close fail conn = (conn, Except.error closedConnectionError)
    ∧ Connection.commit conn = (conn, Except.error closedConnectionError)
    ∧ Connection.cursor conn heap = (conn, heap, Except.error closedConnectionError) := by
  have hconn : conn = { conn0 with closed := true } := by
    have hfst := congrArg Prod.fst hc
    simp [Connection.close, h0] at hfst
    exact hfst.symm
  have hcl : conn.closed = true := by rw [hconn]
  refine ⟨hcl, ?_, ?_, ?_⟩ <;>
    simp [Connection.close, Connection.commit, Connection.cursor, hcl]

/-- Witness for C1: a fresh owning connection is closed once, then each
guarded operation fails with the closed-connection error. -/
theorem closed_guard_all_ops_witness :
    (Connection.mk 0 none true false true []).closed = true
    ∧ Connection.close (fun _ => false) (Connection.mk 0 none true false true [])
      = (Connection.mk 0 none true false true [], Except.error closedConnectionError)
    ∧ Connection.commit (Connection.mk 0 none true false true [])
      = (Connection.mk 0 none true false true [], Except.error closedConnectionError)
    ∧ Connection.cursor (Connection.mk 0 none true false true []) 5
      = (Connection.mk 0 none true false true [], 5, Except.error closedConnectionError) :=
  closed_guard_all_ops (Connection.mk 0 none true false false [])
    (Connection.mk 0 none true false true []) (fun _ => false)
    (Except.ok [Event.clientClose 0]) 5 rfl rfl

/-- C2: a first `close()` on an open connection sets `closed`, returns
normally (well-formedness: an owned storage client is non-null, as the
constructor guarantees), emits a primary-client close exactly when
`_owns_client` holds — and then only for the connection's own client —
and emits a transport-channel close exactly when
`_owns_bqstorage_client` holds, only for the connection's own storage
client. -/
theorem close_ownership (conn conn' : Connection) (bid : Nat)
    (r : Except PyError (List Event))
    (h0 : conn.closed = false)
    (hwf : conn.owns_bqstorage_client = true → conn.bqstorage_client = some bid)
    (hc : Connection.close (fun _ => false) conn = (conn', r)) :
    conn'.closed = true
    ∧ exOk r = true
    ∧ (okEvents r).filter Event.isClientCloseEv
      = (if conn.owns_client then [Event.clientClose conn.client] else [])
    ∧ (okEvents r).filter Event.isChannelCloseEv
      = (if conn.owns_bqstorage_client then [Event.channelClose bid] else []) := by
  have hr : r = Connection.closeEffects (fun _ => false) { conn with closed := true } := by
    have hsnd := congrArg Prod.snd hc
    simp [Connection.close, h0] at hsnd
    exact hsnd.symm
  have hconn : conn' = { conn with closed := true } := by
    have hfst := congrArg Prod.fst hc
    simp [Connection.close, h0] at hfst
    exact hfst.symm
  subst hr
  subst hconn
  refine ⟨rfl, ?_, ?_, ?_⟩
  all_goals
    cases hob : conn.owns_bqstorage_client with
    | false =>
        cases hoc : conn.owns_client <;>
          simp [Connection.closeEffects, hoc, hob, okEvents, exOk,
            List.filter_append, filter_clientEv_of_map_cursorClose,
            filter_channelEv_of_map_cursorClose, List.filter,
            Event.isClientCloseEv, Event.isChannelCloseEv]
    | true =>
        have hbq := hwf hob
        cases hoc : conn.owns_client <;>
          simp [Connection.closeEffects, hoc, hob, hbq, okEvents, exOk,
            List.filter_append, filter_clientEv_of_map_cursorClose,
            filter_channelEv_of_map_cursorClose, List.filter,
            Event.isClientCloseEv, Event.isChannelCloseEv]

/-- Witness for C2: a connection owning both clients, with one tracked
cursor, closed for the first time. -/
theorem close_ownership_witness :
    (Connection.mk 0 (some 7) true true true [3]).closed = true
    ∧ exOk (Except.ok [Event.clientClose 0, Event.channelClose 7, Event.cursorClose 3]) = true
    ∧ (okEvents (Except.ok
        [Event.clientClose 0, Event.channelClose 7, Event.cursorClose 3])).filter
        Event.isClientCloseEv
      = (if (Connection.mk 0 (some 7) true true false [3]).owns_client
          then [Event.clientClose (Connection.mk 0 (some 7) true true false [3]).client]
          else [])
    ∧ (okEvents (Except.ok
        [Event.clientClose 0, Event.channelClose 7, Event.cursorClose 3])).filter
        Event.isChannelCloseEv
      = (if (Connection.mk 0 (some 7) true true false [3]).owns_bqstorage_client
          then [Event.channelClose 7]
          else []) :=
  close_ownership (Connection.mk 0 (some 7) true true false [3])
    (Connection.mk 0 (some 7) true true true [3]) 7
    (Except.ok [Event.clientClose 0, Event.channelClose 7, Event.cursorClose 3])
    rfl (fun _ => rfl) rfl

/-- C9: `close()` sets `closed` before touching any client, so when the
owned primary client's own `close()` raises, the exception propagates
unmodified, nothing gets closed (no event: the transport channel and
the tracked cursors stay open), the connection state is exactly the
original with `closed := true` (cursors still tracked), and every
subsequent guarded call still fails with the closed-connection error. -/
theorem close_sets_closed_before_cascade (conn conn' : Connection)
    (fail : Nat → Bool) (r : Except PyError (List Event)) (heap : Nat)
    (h0 : conn.closed = false)
    (hown : conn.owns_client = true)
    (hfail : fail conn.client = true)
    (hc : Connection.close fail conn = (conn', r)) :
    conn' = { conn with closed := true }
    ∧ r = Except.error PyError.clientCloseError
    ∧ okEvents r = []
    ∧ Connection.close fail conn' = (conn', Except.error closedConnectionError)
    ∧ Connection.commit conn' = (conn', Except.error closedConnectionError)
    ∧ Connection.cursor conn' heap = (conn', heap, Except.error closedConnectionError) := by
  have hcc : Connection.close fail conn
      = ({ conn with closed := true }, Except.error PyError.clientCloseError) := by
    simp [Connection.close, Connection.closeEffects, h0, hown, hfail]
  rw [hcc] at hc
  have hconn : conn' = { conn with closed := true } := by
    have hfst := congrArg Prod.fst hc
    exact hfst.symm
  have hr : r = Except.error PyError.clientCloseError := by
    have hsnd := congrArg Prod.snd hc
    exact hsnd.symm
  have hcl : conn'.closed = true := by rw [hconn]
  refine ⟨hconn, hr, by rw [hr]; rfl, ?_, ?_, ?_⟩ <;>
    simp [Connection.close, Connection.commit, Connection.cursor, hcl]

/-- Witness for C9: an owning connection whose client's `close()`
raises; the connection is still marked closed and guarded afterwards. -/
theorem close_sets_closed_before_cascade_witness :
    Connection.mk 0 none true false true [4]
      = { Connection.mk 0 none true false false [4] with closed := true }
    ∧ (Except.error PyError.clientCloseError : Except PyError (List Event))
      = Except.error PyError.clientCloseError
    ∧ okEvents (Except.error PyError.clientCloseError) = []
    ∧ Connection.close (fun _ => true) (Connection.mk 0 none true false true [4])
      = (Connection.mk 0 none true false true [4], Except.error closedConnectionError)
    ∧ Connection.commit (Connection.mk 0 none true false true [4])
      = (Connection.mk 0 none true false true [4], Except.error closedConnectionError)
    ∧ Connection.cursor (Connection.mk 0 none true false true [4]) 9
      = (Connection.mk 0 none true false true [4], 9, Except.error closedConnectionError) :=
  close_sets_closed_before_cascade (Connection.mk 0 none true false false [4])
    (Connection.mk 0 none true false true [4]) (fun _ => true)
    (Except.error PyError.clientCloseError) 9 rfl rfl rfl rfl

theorem cursorClose_mem_map (c : Nat) (l : List Nat) :
    Event.cursorClose c ∈ l.map Event.cursorClose ↔ c ∈ l := by
  simp [List.mem_map]

theorem cursorClose_not_mem_of_filter (evs : List Event) (live : List Nat) (c : Nat)
    (hf : evs.filter Event.isCursorCloseEv = live.map Event.cursorClose)
    (hcl : c ∉ live) : Event.cursorClose c ∉ evs := by
  intro hmem
  have hin : Event.cursorClose c ∈ evs.filter Event.isCursorCloseEv :=
    List.mem_filter.mpr ⟨hmem, rfl⟩
  rw [hf] at hin
  exact hcl ((cursorClose_mem_map c live).mp hin)

/-- C5: `close()` closes exactly the cursors still live in the tracked
registry at call time; cursors reclaimed beforehand are simply absent
from the cascade and never cause `close()` to raise. -/
theorem close_after_reclaim (conn conn' : Connection) (dead : List Nat) (bid : Nat)
    (r : Except PyError (List Event))
    (h0 : conn.closed = false)
    (hwf : conn.owns_bqstorage_client = true → conn.bqstorage_client = some bid)
    (hc : Connection.close (fun _ => false) (Connection.reclaim dead conn) = (conn', r)) :
    exOk r = true
    ∧ (okEvents r).filter Event.isCursorCloseEv
      = (conn.cursors_created.filter (fun c => decide (c ∉ dead))).map Event.cursorClose
    ∧ ∀ c, c ∈ dead → Event.cursorClose c ∉ okEvents r := by
  have hr : r = Connection.closeEffects (fun _ => false)
      { conn with
          closed := true
          cursors_created := conn.cursors_created.filter (fun c => decide (c ∉ dead)) } := by
    have hsnd := congrArg Prod.snd hc
    simp [Connection.close, Connection.reclaim, h0] at hsnd
    simpa using hsnd.symm
  have hok : exOk r = true := by
    rw [hr]
    cases hob : conn.owns_bqstorage_client with
    | false =>
        cases hoc : conn.owns_client <;>
          simp [Connection.closeEffects, hoc, hob, exOk]
    | true =>
        have hbq := hwf hob
        cases hoc : conn.owns_client <;>
          simp [Connection.closeEffects, hoc, hob, hbq, exOk]
  have hfil : (okEvents r).filter Event.isCursorCloseEv
      = (conn.cursors_created.filter (fun c => decide (c ∉ dead))).map Event.cursorClose := by
    rw [hr]
    cases hob : conn.owns_bqstorage_client with
    | false =>
        cases hoc : conn.owns_client <;>
          simp [Connection.closeEffects, hoc, hob, okEvents,
            List.filter_append, filter_cursorEv_of_map_cursorClose, List.filter,
            Event.isCursorCloseEv]
    | true =>
        have hbq := hwf hob
        cases hoc : conn.owns_client <;>
          simp [Connection.closeEffects, hoc, hob, hbq, okEvents,
            List.filter_append, filter_cursorEv_of_map_cursorClose, List.filter,
            Event.isCursorCloseEv]
  refine ⟨hok, hfil, ?_⟩
  intro c hcd
  refine cursorClose_not_mem_of_filter (okEvents r) _ c hfil ?_
  intro hmem
  have hm := List.mem_filter.mp hmem
  have hnd : c ∉ dead := by simpa using hm.2
  exact hnd hcd

/-- Witness for C5: a connection tracking cursors 1, 2, 3 of which 2 is
reclaimed before `close()`; only 1 and 3 are closed. -/
theorem close_after_reclaim_witness :
    exOk (Except.ok [Event.cursorClose 1, Event.cursorClose 3]) = true
    ∧ (okEvents (Except.ok [Event.cursorClose 1, Event.cursorClose 3])).filter
        Event.isCursorCloseEv
      = ((Connection.mk 0 none false false false [1, 2, 3]).cursors_created.filter
          (fun c => decide (c ∉ [2]))).map Event.cursorClose
    ∧ ∀ c, c ∈ [2] →
        Event.cursorClose c ∉ okEvents (Except.ok [Event.cursorClose 1, Event.cursorClose 3]) :=
  close_after_reclaim (Connection.mk 0 none false false false [1, 2, 3])
    (Connection.mk 0 none false false true [1, 3]) [2] 0
    (Except.ok [Event.cursorClose 1, Event.cursorClose 3]) rfl (by decide) rfl

/-- C6: on an open connection each `cursor()` call returns a freshly
constructed cursor already registered in the tracked set; two
successive calls yield two distinct cursors, both reachable through
the registry when `close()` follows, and both are closed by that
`close()`. -/
theorem cursor_twice_then_close (conn conn1 conn2 conn3 : Connection)
    (heap heap1 heap2 bid : Nat) (r1 r2 : Except PyError Nat)
    (r3 : Except PyError (List Event))
    (h0 : conn.closed = false)
    (hwf : conn.owns_bqstorage_client = true → conn.bqstorage_client = some bid)
    (h1 : Connection.cursor conn heap = (conn1, heap1, r1))
    (h2 : Connection.cursor conn1 heap1 = (conn2, heap2, r2))
    (h3 : Connection.close (fun _ => false) conn2 = (conn3, r3)) :
    r1 = Except.ok heap
    ∧ r2 = Except.ok (heap + 1)
    ∧ heap ≠ heap + 1
    ∧ heap ∈ conn1.cursors_created
    ∧ heap ∈ conn2.cursors_created
    ∧ heap + 1 ∈ conn2.cursors_created
    ∧ exOk r3 = true
    ∧ Event.cursorClose heap ∈ okEvents r3
    ∧ Event.cursorClose (heap + 1) ∈ okEvents r3 := by
  simp only [Connection.cursor, h0, Bool.false_eq_true, if_false, Prod.mk.injEq] at h1
  obtain ⟨ha1, ha2, ha3⟩ := h1
  subst ha1
  subst ha2
  subst ha3
  simp only [Connection.cursor, h0, Bool.false_eq_true, if_false, Prod.mk.injEq] at h2
  obtain ⟨hb1, hb2, hb3⟩ := h2
  subst hb1
  subst hb2
  subst hb3
  have hr3 : r3 = Connection.closeEffects (fun _ => false)
      { conn with
          closed := true
          cursors_created := conn.cursors_created ++ [heap] ++ [heap + 1] } := by
    have hsnd := congrArg Prod.snd h3
    simp [Connection.close, h0] at hsnd
    simpa using hsnd.symm
  refine ⟨rfl, rfl, by simp, by simp, by simp, by simp, ?_, ?_, ?_⟩ <;>
  · rw [hr3]
    cases hob : conn.owns_bqstorage_client with
    | false =>
        cases hoc : conn.owns_client <;>
          simp [Connection.closeEffects, hoc, hob, exOk, okEvents,
            List.mem_append, List.mem_map]
    | true =>
        have hbq := hwf hob
        cases hoc : conn.owns_client <;>
          simp [Connection.closeEffects, hoc, hob, hbq, exOk, okEvents,
            List.mem_append, List.mem_map]

/-- Witness for C6: two `cursor()` calls on a fresh connection starting
from allocator state 10, then `close()`. -/
theorem cursor_twice_then_close_witness :
    (Except.ok 10 : Except PyError Nat) = Except.ok 10
    ∧ (Except.ok 11 : Except PyError Nat) = Except.ok (10 + 1)
    ∧ 10 ≠ 10 + 1
    ∧ 10 ∈ (Connection.mk 0 none false false false [10]).cursors_created
    ∧ 10 ∈ (Connection.mk 0 none false false false [10, 11]).cursors_created
    ∧ 10 + 1 ∈ (Connection.mk 0 none false false false [10, 11]).cursors_created
    ∧ exOk (Except.ok [Event.cursorClose 10, Event.cursorClose 11]) = true
    ∧ Event.cursorClose 10 ∈ okEvents (Except.ok [Event.cursorClose 10, Event.cursorClose 11])
    ∧ Event.cursorClose (10 + 1)
        ∈ okEvents (Except.ok [Event.cursorClose 10, Event.cursorClose 11]) :=
  cursor_twice_then_close (Connection.mk 0 none false false false [])
    (Connection.mk 0 none false false false [10])
    (Connection.mk 0 none false false false [10, 11])
    (Connection.mk 0 none false false true [10, 11])
    10 11 12 0 (Except.ok 10) (Except.ok 11)
    (Except.ok [Event.cursorClose 10, Event.cursorClose 11])
    rfl (by decide) rfl rfl rfl

/-- C10: with a supplied primary client and an omitted storage client
the constructor still invokes the factory capability on the supplied
client, so when the factory produces a client the connection owns only
the storage client, and a later `close()` closes only the storage
transport channel — never the supplied primary client. -/
theorem supplied_client_derived_bqstorage (f : Nat → Option Nat) (d c b : Nat)
    (conn' : Connection) (r : Except PyError (List Event))
    (hb : f c = some b)
    (hc : Connection.close (fun _ => false) (Connection.init f d (some c) none)
      = (conn', r)) :
    (Connection.init f d (some c) none).bqstorage_client = f c
    ∧ (Connection.init f d (some c) none).owns_client = false
    ∧ (Connection.init f d (some c) none).owns_bqstorage_client = true
    ∧ exOk r = true
    ∧ (okEvents r).filter Event.isChannelCloseEv = [Event.channelClose b]
    ∧ (okEvents r).filter Event.isClientCloseEv = [] := by
  have hinit : Connection.init f d (some c) none
      = Connection.mk c (some b) false true false [] := by
    simp [Connection.init, hb]
  rw [hinit] at hc
  have hr : r = Except.ok [Event.channelClose b] := by
    have hsnd := congrArg Prod.snd hc
    simp [Connection.close, Connection.closeEffects] at hsnd
    exact hsnd.symm
  refine ⟨rfl, rfl, by simp [Connection.init, hb], ?_, ?_, ?_⟩ <;>
    simp [hr, exOk, okEvents, List.filter, Event.isChannelCloseEv, Event.isClientCloseEv]

/-- Witness for C10: supplied primary client 1, factory yielding
storage client 7; `close()` closes only the transport channel of 7. -/
theorem supplied_client_derived_bqstorage_witness :
    (Connection.init (fun _ => some 7) 0 (some 1) none).bqstorage_client
      = (fun _ => some 7 : Nat → Option Nat) 1
    ∧ (Connection.init (fun _ => some 7) 0 (some 1) none).owns_client = false
    ∧ (Connection.init (fun _ => some 7) 0 (some 1) none).owns_bqstorage_client = true
    ∧ exOk (Except.ok [Event.channelClose 7]) = true
    ∧ (okEvents (Except.ok [Event.channelClose 7])).filter Event.isChannelCloseEv
      = [Event.channelClose 7]
    ∧ (okEvents (Except.ok [Event.channelClose 7])).filter Event.isClientCloseEv = [] :=
  supplied_client_derived_bqstorage (fun _ => some 7) 0 1 7
    (Connection.mk 1 (some 7) false true true [])
    (Except.ok [Event.channelClose 7]) rfl rfl

end BQDbapi
